import Mathlib

/-!
# Chiron core: shallow embedding and verification

A shallow embedding of the Chiron learning-assistant core (orchestrator,
tool-calling loop, tool registry/dispatch, relational store, vector store)
translated from `src/chiron`, together with theorems settling the frozen
claims about it.

Conventions:
* SQLite tables become Lean lists of row structures; every multi-statement
  operation is modelled as a pure state transformer, and the
  connection-manager's commit/rollback protocol is its own combinator.
* Python floats that only ride along as metadata (source scores,
  confidence) are modelled as `Rat`.
* Timestamps ride along as their ISO-8601 strings.
* The ChromaDB collection is a list of id-keyed entries with upsert
  semantics.
-/

namespace Chiron

/-! ## SHA-256 (for `VectorStore._generate_id`, which calls `hashlib.sha256`)

A word is a `Nat` reduced modulo `2 ^ 32`. -/

def w32 (n : Nat) : Nat := n % 4294967296

def rotr32 (x n : Nat) : Nat :=
  w32 ((x >>> n) ||| (x <<< (32 - n)))

def sha256K : List Nat :=
  [1116352408, 1899447441, 3049323471, 3921009573, 961987163,
   1508970993, 2453635748, 2870763221, 3624381080, 310598401,
   607225278, 1426881987, 1925078388, 2162078206, 2614888103,
   3248222580, 3835390401, 4022224774, 264347078, 604807628,
   770255983, 1249150122, 1555081692, 1996064986, 2554220882,
   2821834349, 2952996808, 3210313671, 3336571891, 3584528711,
   113926993, 338241895, 666307205, 773529912, 1294757372,
   1396182291, 1695183700, 1986661051, 2177026350, 2456956037,
   2730485921, 2820302411, 3259730800, 3345764771, 3516065817,
   3600352804, 4094571909, 275423344, 430227734, 506948616,
   659060556, 883997877, 958139571, 1322822218, 1537002063,
   1747873779, 1955562222, 2024104815, 2227730452, 2361852424,
   2428436474, 2756734187, 3204031479, 3329325298]

def sha256H0 : List Nat :=
  [1779033703, 3144134277, 1013904242, 2773480762,
   1359893119, 2600822924, 528734635, 1541459225]

/-- Big-endian byte decomposition of `n` into `k` bytes. -/
def natToBytesBE (k n : Nat) : List Nat :=
  match k with
  | 0 => []
  | k + 1 => natToBytesBE k (n >>> 8) ++ [n % 256]

/-- SHA-256 message padding: append `0x80`, zero bytes to 56 mod 64, and the
bit length as an 8-byte big-endian integer. -/
def sha256Pad (msg : List Nat) : List Nat :=
  let len := msg.length
  let zeros := (64 + 55 - len % 64) % 64
  msg ++ [0x80] ++ List.replicate zeros 0 ++ natToBytesBE 8 (8 * len)

/-- Group a byte list into 32-bit big-endian words. -/
def bytesToWords : List Nat → List Nat
  | b0 :: b1 :: b2 :: b3 :: rest =>
      (((b0 <<< 8 ||| b1) <<< 8 ||| b2) <<< 8 ||| b3) :: bytesToWords rest
  | _ => []

/-- Extend the 16 message-schedule words to 64. -/
def sha256Extend (ws : Array Nat) : Array Nat :=
  (List.range 48).foldl
    (fun ws i =>
      let j := i + 16
      let x15 := ws.getD (j - 15) 0
      let x2 := ws.getD (j - 2) 0
      let s0 := (rotr32 x15 7) ^^^ (rotr32 x15 18) ^^^ (x15 >>> 3)
      let s1 := (rotr32 x2 17) ^^^ (rotr32 x2 19) ^^^ (x2 >>> 10)
      ws.push (w32 (ws.getD (j - 16) 0 + s0 + ws.getD (j - 7) 0 + s1)))
    ws

/-- One round of the SHA-256 compression function. -/
def sha256Round (st : Array Nat) (ki wi : Nat) : Array Nat :=
  let a := st.getD 0 0
  let b := st.getD 1 0
  let c := st.getD 2 0
  let d := st.getD 3 0
  let e := st.getD 4 0
  let f := st.getD 5 0
  let g := st.getD 6 0
  let h := st.getD 7 0
  let s1 := (rotr32 e 6) ^^^ (rotr32 e 11) ^^^ (rotr32 e 25)
  let ch := (e &&& f) ^^^ ((4294967295 - e) &&& g)
  let t1 := w32 (h + s1 + ch + ki + wi)
  let s0 := (rotr32 a 2) ^^^ (rotr32 a 13) ^^^ (rotr32 a 22)
  let maj := (a &&& b) ^^^ (a &&& c) ^^^ (b &&& c)
  let t2 := w32 (s0 + maj)
  #[w32 (t1 + t2), a, b, c, w32 (d + t1), e, f, g]

/-- Compress one 64-byte block into the running hash state. -/
def sha256Compress (h : Array Nat) (block : List Nat) : Array Nat :=
  let ws := sha256Extend (List.toArray (bytesToWords block))
  let st := (List.range 64).foldl
    (fun st i => sha256Round st (sha256K.getD i 0) (ws.getD i 0)) h
  (Array.range 8).map (fun i => w32 (h.getD i 0 + st.getD i 0))

/-- Split a byte list into 64-byte chunks. -/
def chunks64 (l : List Nat) : List (List Nat) :=
  if h : l.length < 64 then []
  else
    have : l.length - 64 < l.length := by omega
    l.take 64 :: chunks64 (l.drop 64)
termination_by l.length
decreasing_by simpa

/-- SHA-256 digest of a byte sequence, as 32 bytes. -/
def sha256Bytes (msg : List Nat) : List Nat :=
  let padded := sha256Pad msg
  let final := (chunks64 padded).foldl sha256Compress (List.toArray sha256H0)
  (final.toList.map (natToBytesBE 4)).flatten

def hexDigit (n : Nat) : Char :=
  "0123456789abcdef".toList.getD n '0'

def byteToHex (b : Nat) : List Char :=
  [hexDigit (b / 16), hexDigit (b % 16)]

/-- UTF-8 encoding of one character (Python `str.encode` default). -/
def utf8Char (c : Char) : List Nat :=
  let n := c.toNat
  if n < 0x80 then [n]
  else if n < 0x800 then
    [0xC0 ||| (n >>> 6), 0x80 ||| (n &&& 0x3F)]
  else if n < 0x10000 then
    [0xE0 ||| (n >>> 12), 0x80 ||| ((n >>> 6) &&& 0x3F), 0x80 ||| (n &&& 0x3F)]
  else
    [0xF0 ||| (n >>> 18), 0x80 ||| ((n >>> 12) &&& 0x3F),
     0x80 ||| ((n >>> 6) &&& 0x3F), 0x80 ||| (n &&& 0x3F)]

def utf8Bytes (s : String) : List Nat :=
  (s.data.map utf8Char).flatten

/-- Python `hashlib.sha256(s.encode()).hexdigest()`: lowercase hex digest of the
UTF-8 encoding of `s`. -/
def sha256Hex (s : String) : String :=
  ⟨((sha256Bytes (utf8Bytes s)).map byteToHex).flatten⟩

/-! ## Data models (`chiron/models.py`) -/

/-- Embeds `models.KnowledgeChunk`: one validated fact destined for the vector
store. `source_score` and `confidence` are floats in `[0,1]`, modelled as
rationals; `last_validated` is carried as its ISO-8601 string. -/
structure KnowledgeChunk where
  content : String
  subject_id : String
  source_url : String
  source_score : Rat
  topic_path : String
  confidence : Rat
  contradictions : List String
  last_validated : String
  deriving DecidableEq, Repr

/-- Embeds `models.SubjectStatus`. -/
inductive SubjectStatus where
  | initializing
  | researching
  | ready
  | paused
  deriving DecidableEq, Repr

/-- Embeds `models.LearningGoal`. -/
structure LearningGoal where
  id : Option Nat := none
  subject_id : String
  purpose_statement : String
  target_depth : String := "practical"
  created_date : String
  research_complete : Bool := false
  status : SubjectStatus := .initializing
  deriving DecidableEq, Repr

/-- Embeds `models.KnowledgeNode`. -/
structure KnowledgeNode where
  id : Option Nat := none
  subject_id : String
  parent_id : Option Nat := none
  title : String
  description : Option String := none
  depth : Int := 0
  is_goal_critical : Bool := false
  prerequisites : List Nat := []
  shared_with_subjects : List String := []
  deriving DecidableEq, Repr

/-! ## Vector store (`chiron/storage/vector_store.py`)

The ChromaDB collection `knowledge_chunks` is modelled as a list of
id-keyed entries; `upsert` replaces the entry with a matching id in place
and otherwise appends. -/

/-- One record of the ChromaDB collection: the document text plus the
metadata dict written by `VectorStore.store_knowledge` (the
`contradictions` list is JSON-encoded there; we keep it structured). -/
structure ChunkEntry where
  id : String
  document : String
  subject_id : String
  source_url : String
  source_score : Rat
  topic_path : String
  confidence : Rat
  contradictions : List String
  last_validated : String
  deriving DecidableEq, Repr

/-- The persisted collection state. -/
abbrev VectorStoreState := List ChunkEntry

/-- Embeds `VectorStore._generate_id`: SHA-256 over
`f"{chunk.subject_id}:{chunk.topic_path}:{chunk.content}"`. -/
def generateId (chunk : KnowledgeChunk) : String :=
  sha256Hex (chunk.subject_id ++ ":" ++ chunk.topic_path ++ ":" ++ chunk.content)

/-- The entry written for a chunk: document text plus serialized metadata. -/
def chunkToEntry (chunk : KnowledgeChunk) : ChunkEntry :=
  { id := generateId chunk
    document := chunk.content
    subject_id := chunk.subject_id
    source_url := chunk.source_url
    source_score := chunk.source_score
    topic_path := chunk.topic_path
    confidence := chunk.confidence
    contradictions := chunk.contradictions
    last_validated := chunk.last_validated }

/-- Chroma `collection.upsert` with a single id: replace the entry with
that id if present, else add it. -/
def upsertEntry (store : VectorStoreState) (e : ChunkEntry) : VectorStoreState :=
  if (store : List ChunkEntry).any (fun x => x.id = e.id) then
    (store : List ChunkEntry).map (fun x => if x.id = e.id then e else x)
  else
    (store : List ChunkEntry) ++ [e]

/-- Embeds `VectorStore.store_knowledge`: compute the content-addressed id and
upsert document + metadata. -/
def store_knowledge (store : VectorStoreState) (chunk : KnowledgeChunk) :
    VectorStoreState :=
  upsertEntry store (chunkToEntry chunk)

/-- Embeds `VectorStore.delete_subject`: remove every chunk whose `subject_id`
matches. -/
def vsDeleteSubject (store : VectorStoreState) (subject_id : String) :
    VectorStoreState :=
  (store : List ChunkEntry).filter (fun c => ¬ c.subject_id = subject_id)

/-- Embeds `VectorStore.get_by_topic`: exact filter on subject and topic path. -/
def get_by_topic (store : VectorStoreState) (subject_id topic_path : String) :
    List ChunkEntry :=
  (store : List ChunkEntry).filter
    (fun c => c.subject_id = subject_id ∧ c.topic_path = topic_path)

/-- Modelled from the spec: `VectorStore.count_facts_by_topic` is invoked by
`Orchestrator.get_research_progress` but its definition is absent from the
source tree; per the spec, `countFactsByTopic(subjectId) -> map(topicTitle
-> count)` aggregates the subject's stored facts keyed by the exact
topic-path string (no rollup to children or descendants). -/
def count_facts_by_topic (store : VectorStoreState) (subject_id : String) :
    List (String × Nat) :=
  let topics := ((store : List ChunkEntry).filter
    (fun c => c.subject_id = subject_id)).map (fun c => c.topic_path)
  topics.dedup.map (fun t => (t, topics.count t))

/-! ## Relational store (`chiron/storage/database.py`)

Each SQLite table becomes a list of row structures; `AUTOINCREMENT`
primary keys are modelled with per-table next-id counters. -/

/-- A row of the `learning_goals` table. -/
structure GoalRow where
  id : Nat
  subject_id : String
  purpose_statement : String
  target_depth : String
  created_date : String
  research_complete : Bool
  status : SubjectStatus
  deriving DecidableEq, Repr

/-- A row of the `knowledge_nodes` table. -/
structure NodeRow where
  id : Nat
  subject_id : String
  parent_id : Option Nat
  title : String
  description : Option String
  depth : Int
  is_goal_critical : Bool
  prerequisites : List Nat
  shared_with_subjects : List String
  deriving DecidableEq, Repr

/-- A row of the `lessons` table (the fields the core operations touch). -/
structure LessonRow where
  id : Nat
  subject_id : String
  deriving DecidableEq, Repr

/-- A row of the `responses` table (the fields the core operations touch);
`lesson_id` is nullable. -/
structure ResponseRow where
  id : Nat
  lesson_id : Option Nat
  node_id : Nat
  deriving DecidableEq, Repr

/-- The database state: the tables relevant to the core, plus the
next `AUTOINCREMENT` values. -/
structure DBState where
  learning_goals : List GoalRow
  knowledge_nodes : List NodeRow
  lessons : List LessonRow
  responses : List ResponseRow
  settings : List (String × String)
  next_goal_id : Nat
  next_node_id : Nat
  deriving DecidableEq, Repr

/-- The empty database, as produced by `Database.initialize`
(SQLite `AUTOINCREMENT` starts at 1). -/
def emptyDB : DBState :=
  { learning_goals := []
    knowledge_nodes := []
    lessons := []
    responses := []
    settings := []
    next_goal_id := 1
    next_node_id := 1 }

/-- Embeds `Database._get_connection`: run a transaction body; commit the new state
on success, roll back to the original state when the body raises (the
exception is re-raised). -/
def runTransaction {α : Type} (body : DBState → Except String (α × DBState))
    (s : DBState) : Except String α × DBState :=
  match body s with
  | .ok (a, s2) => (.ok a, s2)
  | .error e => (.error e, s)

/-- Embeds `Database.save_learning_goal`: `INSERT ... ON CONFLICT(subject_id) DO
UPDATE SET purpose_statement, target_depth, research_complete, status`
(note: `created_date` is not in the update set), returning the row id. -/
def save_learning_goal (s : DBState) (goal : LearningGoal) : Nat × DBState :=
  match (s.learning_goals.find? (fun r => r.subject_id = goal.subject_id)) with
  | some row =>
      (row.id,
       { s with learning_goals :=
          s.learning_goals.map (fun r =>
            if r.subject_id = goal.subject_id then
              { r with
                purpose_statement := goal.purpose_statement
                target_depth := goal.target_depth
                research_complete := goal.research_complete
                status := goal.status }
            else r) })
  | none =>
      let row : GoalRow :=
        { id := s.next_goal_id
          subject_id := goal.subject_id
          purpose_statement := goal.purpose_statement
          target_depth := goal.target_depth
          created_date := goal.created_date
          research_complete := goal.research_complete
          status := goal.status }
      (s.next_goal_id,
       { s with
          learning_goals := s.learning_goals ++ [row]
          next_goal_id := s.next_goal_id + 1 })

/-- Reconstruct the `LearningGoal` model from a row, as
`Database.get_learning_goal` does. -/
def rowToGoal (row : GoalRow) : LearningGoal :=
  { id := some row.id
    subject_id := row.subject_id
    purpose_statement := row.purpose_statement
    target_depth := row.target_depth
    created_date := row.created_date
    research_complete := row.research_complete
    status := row.status }

/-- Embeds `Database.get_learning_goal`: `SELECT * FROM learning_goals WHERE
subject_id = ?`. -/
def get_learning_goal (s : DBState) (subject_id : String) :
    Option LearningGoal :=
  (s.learning_goals.find? (fun r => r.subject_id = subject_id)).map rowToGoal

/-- Embeds `Database.delete_subject`: return `False` when no goal row exists;
otherwise delete, in order, the subject's responses (those referencing its
lessons), lessons, knowledge nodes, the goal row, and the
`active_subject` setting row when its value is this subject. -/
def dbDeleteSubject (s : DBState) (subject_id : String) : Bool × DBState :=
  if (s.learning_goals.find? (fun r => r.subject_id = subject_id)).isNone then
    (false, s)
  else
    let lessonIds :=
      (s.lessons.filter (fun l => l.subject_id = subject_id)).map (fun l => l.id)
    (true,
     { s with
        responses := s.responses.filter (fun r =>
          ¬ ∃ lid ∈ r.lesson_id, lid ∈ lessonIds)
        lessons := s.lessons.filter (fun l => ¬ l.subject_id = subject_id)
        knowledge_nodes := s.knowledge_nodes.filter (fun n =>
          ¬ n.subject_id = subject_id)
        learning_goals := s.learning_goals.filter (fun g =>
          ¬ g.subject_id = subject_id)
        settings := s.settings.filter (fun kv =>
          ¬ (kv.1 = "active_subject" ∧ kv.2 = subject_id)) })

/-- Embeds `Database.save_knowledge_node`: `UPDATE` in place when the node carries
an id, `INSERT` with a fresh id otherwise; returns the row id. -/
def save_knowledge_node (s : DBState) (node : KnowledgeNode) : Nat × DBState :=
  match node.id with
  | some nid =>
      (nid,
       { s with knowledge_nodes :=
          s.knowledge_nodes.map (fun r =>
            if r.id = nid then
              { id := nid
                subject_id := node.subject_id
                parent_id := node.parent_id
                title := node.title
                description := node.description
                depth := node.depth
                is_goal_critical := node.is_goal_critical
                prerequisites := node.prerequisites
                shared_with_subjects := node.shared_with_subjects }
            else r) })
  | none =>
      let row : NodeRow :=
        { id := s.next_node_id
          subject_id := node.subject_id
          parent_id := node.parent_id
          title := node.title
          description := node.description
          depth := node.depth
          is_goal_critical := node.is_goal_critical
          prerequisites := node.prerequisites
          shared_with_subjects := node.shared_with_subjects }
      (s.next_node_id,
       { s with
          knowledge_nodes := s.knowledge_nodes ++ [row]
          next_node_id := s.next_node_id + 1 })

/-- Reconstruct the `KnowledgeNode` model from a row. -/
def rowToNode (row : NodeRow) : KnowledgeNode :=
  { id := some row.id
    subject_id := row.subject_id
    parent_id := row.parent_id
    title := row.title
    description := row.description
    depth := row.depth
    is_goal_critical := row.is_goal_critical
    prerequisites := row.prerequisites
    shared_with_subjects := row.shared_with_subjects }

/-- The `ORDER BY depth, id`: lexicographic comparison used by
`get_knowledge_tree`. -/
def nodeLE (a b : NodeRow) : Bool :=
  a.depth < b.depth ∨ (a.depth = b.depth ∧ a.id ≤ b.id)

/-- Insert into a `nodeLE`-sorted list. -/
def insertNode (x : NodeRow) : List NodeRow → List NodeRow
  | [] => [x]
  | y :: ys => if nodeLE x y then x :: y :: ys else y :: insertNode x ys

/-- Insertion sort by `nodeLE`. `(depth, id)` is distinct across rows
(`id` is the primary key), so this produces the unique `ORDER BY depth,
id` ordering. -/
def sortNodes : List NodeRow → List NodeRow
  | [] => []
  | x :: xs => insertNode x (sortNodes xs)

/-- Embeds `Database.get_knowledge_tree`: `SELECT * FROM knowledge_nodes WHERE
subject_id = ? ORDER BY depth, id`. -/
def get_knowledge_tree (s : DBState) (subject_id : String) :
    List KnowledgeNode :=
  ((sortNodes (s.knowledge_nodes.filter
      (fun n => n.subject_id = subject_id))).map rowToNode)

/-- Embeds `Database.get_setting`: `SELECT value FROM settings WHERE key = ?`. -/
def get_setting (s : DBState) (key : String) : Option String :=
  (s.settings.find? (fun kv => kv.1 = key)).map (fun kv => kv.2)

/-- Embeds `Database.set_setting`: `INSERT ... ON CONFLICT(key) DO UPDATE SET
value`. -/
def set_setting (s : DBState) (key value : String) : DBState :=
  if (s.settings.find? (fun kv => kv.1 = key)).isSome then
    { s with settings := s.settings.map (fun kv =>
        if kv.1 = key then (key, value) else kv) }
  else
    { s with settings := s.settings ++ [(key, value)] }

/-! ## Tool registry and schema generation (`chiron/tools/__init__.py`)

Python type annotations, reflected over by `_get_tool_definition`, become
explicit data: each registered tool's keyword parameters are listed with
their annotation and whether they carry a default. -/

/-- The Python type annotations appearing in tool signatures. `opt t` is a
union with `None` (`t | None`); `other` stands for any non-primitive
annotation (e.g. the `Database` / `VectorStore` handles). -/
inductive PyType where
  | str
  | int
  | float
  | bool
  | list (t : PyType)
  | opt (t : PyType)
  | other
  deriving DecidableEq, Repr

/-- JSON-schema types emitted by `_python_type_to_json_schema`. -/
inductive JsonType where
  | string
  | integer
  | number
  | boolean
  | array (items : JsonType)
  deriving DecidableEq, Repr

/-- Embeds `_python_type_to_json_schema`. A union with `None` has
`types.UnionType` as its origin, so it matches none of the primitive or
list branches and takes the string fallback; the `type(None)`-origin branch
of the source is unreachable for these signatures. -/
def pyTypeToSchema : PyType → JsonType
  | .str => .string
  | .int => .integer
  | .float => .number
  | .bool => .boolean
  | .list t => .array (pyTypeToSchema t)
  | .opt _ => .string
  | .other => .string

/-- One parameter of a tool signature: its name, annotation, and whether
the signature gives it a default value. -/
structure SigParam where
  name : String
  ty : PyType
  hasDefault : Bool
  deriving DecidableEq, Repr

/-- The generated tool definition (the `input_schema` part that claim-level
reasoning needs: `properties` as an ordered name-to-type list and the
`required` array). -/
structure ToolDef where
  name : String
  properties : List (String × JsonType)
  required : List String
  deriving DecidableEq, Repr

/-- Is the annotation a union with `None`? (`origin is type(None)` or
`NoneType in args` in the source.) -/
def isOptionalType : PyType → Bool
  | .opt _ => true
  | _ => false

/-- The first non-`None` member of the union
(`next(a for a in args if a is not type(None))`). -/
def unwrapOptional : PyType → PyType
  | .opt t => t
  | t => t

/-- Embeds `_get_tool_definition`: walk the signature in order; skip `db` and
`vector_store`; optional-typed parameters are unwrapped and never required;
any other parameter without a default is required; every surviving
parameter gets a schema entry. -/
def getToolDefinition (name : String) (params : List SigParam) : ToolDef :=
  let visible := params.filter
    (fun p => ¬ (p.name = "db" ∨ p.name = "vector_store"))
  { name := name
    properties := visible.map
      (fun p => (p.name, pyTypeToSchema (unwrapOptional p.ty)))
    required := (visible.filter
      (fun p => ¬ isOptionalType p.ty = true ∧ ¬ p.hasDefault = true)).map
      (fun p => p.name) }

/-- The signatures of the 12 registered tools, in `TOOL_REGISTRY` order,
transcribed from `chiron/tools/*.py`. -/
def toolSignatures : List (String × List SigParam) :=
  [("get_active_subject",
    [⟨"db", .other, false⟩, ⟨"vector_store", .other, false⟩]),
   ("get_knowledge_node",
    [⟨"db", .other, false⟩, ⟨"vector_store", .other, false⟩,
     ⟨"node_id", .int, false⟩]),
   ("get_knowledge_tree",
    [⟨"db", .other, false⟩, ⟨"vector_store", .other, false⟩,
     ⟨"subject_id", .str, false⟩]),
   ("get_learning_goal",
    [⟨"db", .other, false⟩, ⟨"vector_store", .other, false⟩,
     ⟨"subject_id", .str, false⟩]),
   ("get_user_progress",
    [⟨"db", .other, false⟩, ⟨"vector_store", .other, false⟩,
     ⟨"node_id", .int, false⟩]),
   ("list_subjects",
    [⟨"db", .other, false⟩, ⟨"vector_store", .other, false⟩]),
   ("record_assessment",
    [⟨"db", .other, false⟩, ⟨"vector_store", .other, false⟩,
     ⟨"node_id", .int, false⟩, ⟨"question_hash", .str, false⟩,
     ⟨"response", .str, false⟩, ⟨"correct", .bool, false⟩,
     ⟨"lesson_id", .opt .int, true⟩]),
   ("save_knowledge_node",
    [⟨"db", .other, false⟩, ⟨"vector_store", .other, false⟩,
     ⟨"subject_id", .str, false⟩, ⟨"title", .str, false⟩,
     ⟨"description", .opt .str, true⟩, ⟨"parent_id", .opt .int, true⟩,
     ⟨"depth", .int, true⟩, ⟨"is_goal_critical", .bool, true⟩,
     ⟨"prerequisites", .opt (.list .int), true⟩,
     ⟨"shared_with_subjects", .opt (.list .str), true⟩]),
   ("save_learning_goal",
    [⟨"db", .other, false⟩, ⟨"vector_store", .other, false⟩,
     ⟨"subject_id", .str, false⟩, ⟨"purpose_statement", .str, false⟩,
     ⟨"target_depth", .str, true⟩]),
   ("set_active_subject",
    [⟨"db", .other, false⟩, ⟨"vector_store", .other, false⟩,
     ⟨"subject_id", .str, false⟩]),
   ("store_knowledge",
    [⟨"db", .other, false⟩, ⟨"vector_store", .other, false⟩,
     ⟨"content", .str, false⟩, ⟨"subject_id", .str, false⟩,
     ⟨"source_url", .str, false⟩, ⟨"source_score", .float, false⟩,
     ⟨"topic_path", .str, false⟩, ⟨"confidence", .float, false⟩,
     ⟨"contradictions", .opt (.list .str), true⟩]),
   ("vector_search",
    [⟨"db", .other, false⟩, ⟨"vector_store", .other, false⟩,
     ⟨"query", .str, false⟩, ⟨"subject_id", .str, false⟩,
     ⟨"top_k", .int, true⟩, ⟨"min_confidence", .float, true⟩])]

/-- Embeds `get_all_tool_definitions`. -/
def getAllToolDefinitions : List ToolDef :=
  toolSignatures.map (fun ps => getToolDefinition ps.1 ps.2)

/-! ## Tool dispatch (`Orchestrator._create_tool_executor`) -/

/-- A tool-call argument object, shallowly: named arguments with their
serialized values. -/
abbrev ToolArgs := List (String × String)

/-- A dispatch outcome: either the tool's (JSON-serializable, here
serialized) result, or the structured `{"error": message}` result. The
executor is a total function — a dispatch failure is returned as
`.error`, never raised to the caller. -/
inductive ToolOutcome where
  | ok (payload : String)
  | error (msg : String)
  deriving DecidableEq, Repr

/-- Embeds `Orchestrator._create_tool_executor`'s `execute`: look the name up in
the registry (here a lookup function with the two store handles already
bound, as the closure binds `self.db` / `self.vector_store`); absent names
yield the unknown-tool error; a tool raising `e` yields `{"error": str(e)}`. -/
def executeTool (registry : String → Option (ToolArgs → Except String String))
    (name : String) (args : ToolArgs) : ToolOutcome :=
  match registry name with
  | none => .error ("Unknown tool: " ++ name)
  | some f =>
    match f args with
    | .ok r => .ok r
    | .error e => .error e

/-! ## Tool-calling loop (`chiron/agents/base.py`)

The underlying model call is an external collaborator: it is scripted as
the list of responses it will return, each a list of content blocks. The
loop consumes one response per model call; `none` means the scripted
responses were exhausted before the loop terminated. -/

/-- A content block of a model response. -/
inductive Block where
  | text (s : String)
  | toolUse (callId : String) (name : String) (input : ToolArgs)
  deriving DecidableEq, Repr

/-- One `tool_result` entry of the user-role results turn, tagged with the
originating `tool_use_id`; its content is `json.dumps(result)`. -/
structure ToolResultBlock where
  tool_use_id : String
  content : ToolOutcome
  deriving DecidableEq, Repr

/-- Message content: plain text, raw assistant blocks, or a tool-results
list. -/
inductive MessageContent where
  | text (s : String)
  | blocks (bs : List Block)
  | toolResults (rs : List ToolResultBlock)
  deriving DecidableEq, Repr

inductive Role where
  | user
  | assistant
  deriving DecidableEq, Repr

structure Message where
  role : Role
  content : MessageContent
  deriving DecidableEq, Repr

/-- Embeds `BaseAgent._extract_text`: concatenate the text blocks. -/
def extractText (bs : List Block) : String :=
  String.join (bs.filterMap (fun b =>
    match b with
    | .text s => some s
    | _ => none))

/-- The `tool_use` blocks of a response, in order:
`(call id, tool name, input)`. -/
def toolUseBlocks (bs : List Block) : List (String × String × ToolArgs) :=
  bs.filterMap (fun b =>
    match b with
    | .toolUse i n a => some (i, n, a)
    | _ => none)

/-- What one `BaseAgent.run` call did: the returned text, the final
conversation history, the executor invocations in order, and how many
times the underlying model was called. -/
structure RunOutcome where
  finalText : String
  messages : List Message
  executedCalls : List (String × ToolArgs)
  modelCalls : Nat
  deriving DecidableEq, Repr

/-- The `while True` loop of `BaseAgent.run` (with a tool executor
configured): call the model; with no `tool_use` blocks, append the
extracted text as an assistant turn and return it; otherwise append the
raw response as an assistant turn, execute each requested tool in order,
append all results as one user-role turn, and continue. -/
def runLoop (executor : String → ToolArgs → ToolOutcome) :
    List (List Block) → List Message → List (String × ToolArgs) → Nat →
    Option RunOutcome
  | [], _, _, _ => none
  | r :: rest, msgs, calls, n =>
    let uses := toolUseBlocks r
    if uses.isEmpty then
      let content := extractText r
      some ⟨content, msgs ++ [⟨.assistant, .text content⟩], calls, n + 1⟩
    else
      let results := uses.map
        (fun u => ToolResultBlock.mk u.1 (executor u.2.1 u.2.2))
      runLoop executor rest
        (msgs ++ [⟨.assistant, .blocks r⟩, ⟨.user, .toolResults results⟩])
        (calls ++ uses.map (fun u => (u.2.1, u.2.2)))
        (n + 1)

/-- Embeds `BaseAgent.run`: append the initial message as a user turn, then run
the loop. -/
def runAgent (executor : String → ToolArgs → ToolOutcome)
    (responses : List (List Block)) (history : List Message)
    (initialMessage : String) : Option RunOutcome :=
  runLoop executor responses (history ++ [⟨.user, .text initialMessage⟩]) [] 0

/-! ## Orchestrator (`chiron/orchestrator.py`) -/

/-- Embeds `orchestrator.WorkflowState`. -/
inductive WorkflowState where
  | idle
  | initializing
  | researching
  | assessing
  | generatingLesson
  | deliveringLesson
  | exercising
  deriving DecidableEq, Repr

/-- The orchestrator-visible state: both stores, the in-memory
active-subject cache, and the workflow state. -/
structure OrchState where
  db : DBState
  vs : VectorStoreState
  active_subject_id : Option String
  state : WorkflowState
  deriving DecidableEq, Repr

/-- Embeds `Orchestrator.get_active_subject`: the in-memory cache, else the
persisted `active_subject` setting (cached when found). -/
def orchGetActiveSubject (s : OrchState) : Option String × OrchState :=
  match s.active_subject_id with
  | some a => (some a, s)
  | none =>
    match get_setting s.db "active_subject" with
    | some a => (some a, { s with active_subject_id := some a })
    | none => (none, s)

/-- Embeds `Orchestrator.set_active_subject`: verify the goal exists (raise a
`ValueError` otherwise, before any write), then write both the in-memory
cache and the persisted setting. -/
def orchSetActiveSubject (s : OrchState) (subject_id : String) :
    Except String Unit × OrchState :=
  match get_learning_goal s.db subject_id with
  | none => (.error ("Subject '" ++ subject_id ++ "' does not exist"), s)
  | some _ =>
    (.ok (),
     { s with
        active_subject_id := some subject_id
        db := set_setting s.db "active_subject" subject_id })

/-- Embeds `Orchestrator.delete_subject`: delete the subject's vector-store
chunks, clear the in-memory active pointer if it matched, and only then
issue the relational cascade delete, returning its result. -/
def orchDeleteSubject (s : OrchState) (subject_id : String) :
    Bool × OrchState :=
  let vs2 := vsDeleteSubject s.vs subject_id
  let active2 :=
    if s.active_subject_id = some subject_id then none
    else s.active_subject_id
  let res := dbDeleteSubject s.db subject_id
  (res.1, { s with vs := vs2, active_subject_id := active2, db := res.2 })

/-- Python `str.title()` over one character stream: an alphabetic character
is uppercased at a word start (previous character uncased) and lowercased
otherwise. -/
def pyTitleChars : List Char → Bool → List Char
  | [], _ => []
  | c :: cs, prevCased =>
    if c.isAlpha then
      (if prevCased then c.toLower else c.toUpper) :: pyTitleChars cs true
    else
      c :: pyTitleChars cs false

/-- Python `str.title()`. -/
def pyTitle (s : String) : String :=
  ⟨pyTitleChars s.data false⟩

/-- Embeds `subject_id.replace("-", " ")`: for a one-character pattern and
one-character replacement, Python `str.replace` is exactly a character
map. -/
def replaceHyphens (s : String) : String :=
  ⟨s.data.map (fun c => if c = '-' then ' ' else c)⟩

/-- Embeds `subject_id.replace("-", " ").title()`: the fallback topic derived from
the subject slug when the knowledge tree is empty. -/
def slugToTitle (subject_id : String) : String :=
  pyTitle (replaceHyphens subject_id)

/-- The arguments `start_research` passes to
`research_agent.research_topic` (the agent call is the out-of-scope LLM
collaborator; its requested arguments are the observable outcome). -/
structure ResearchCall where
  topic_path : String
  subject_id : String
  context : Option String
  deriving DecidableEq, Repr

/-- Embeds `Orchestrator.start_research`: resolve the active subject and its goal
(raising otherwise), enter `RESEARCHING`, and research either the first
tree node's title or the title-cased slug, with the goal's purpose
statement as context. -/
def orchStartResearch (s : OrchState) : Except String ResearchCall × OrchState :=
  match orchGetActiveSubject s with
  | (none, s1) => (.error "No active subject set", s1)
  | (some sid, s1) =>
    match get_learning_goal s1.db sid with
    | none => (.error ("Subject '" ++ sid ++ "' not found"), s1)
    | some goal =>
      let s2 := { s1 with state := WorkflowState.researching }
      match get_knowledge_tree s2.db sid with
      | [] => (.ok ⟨slugToTitle sid, sid, some goal.purpose_statement⟩, s2)
      | n :: _ => (.ok ⟨n.title, sid, some goal.purpose_statement⟩, s2)

/-- One entry of the progress report's `nodes` list. -/
structure ProgressNodeEntry where
  id : Option Nat
  title : String
  depth : Int
  fact_count : Nat
  deriving DecidableEq, Repr

/-- The progress snapshot returned by `get_research_progress`. -/
structure ResearchProgress where
  subject_id : String
  nodes : List ProgressNodeEntry
  total_facts : Nat
  deriving DecidableEq, Repr

/-- Embeds `fact_counts.get(node.title, 0)`. -/
def lookupCount (counts : List (String × Nat)) (k : String) : Nat :=
  match counts.find? (fun p => p.1 = k) with
  | some p => p.2
  | none => 0

/-- Embeds `Orchestrator.get_research_progress`: resolve the subject (the active
one when none is given, raising when there is none), read the knowledge
tree and the per-topic fact counts, zip them by node title, and total the
fact counts over all topics. -/
def orchGetResearchProgress (s : OrchState) (subjectId? : Option String) :
    Except String ResearchProgress × OrchState :=
  let resolved : Except String String × OrchState :=
    match subjectId? with
    | some sid => (.ok sid, s)
    | none =>
      match orchGetActiveSubject s with
      | (some sid, s1) => (.ok sid, s1)
      | (none, s1) => (.error "No active subject set", s1)
  match resolved with
  | (.error e, s1) => (.error e, s1)
  | (.ok sid, s1) =>
    let nodes := get_knowledge_tree s1.db sid
    let counts := count_facts_by_topic s1.vs sid
    let nodeList := nodes.map (fun n =>
      ProgressNodeEntry.mk n.id n.title n.depth (lookupCount counts n.title))
    let total := (counts.map (fun p => p.2)).sum
    (.ok ⟨sid, nodeList, total⟩, s1)

/-! ## Claim theorems -/

/-- C5: for every tool name and argument object, the orchestrator's tool
executor returns the structured result `{error: "Unknown tool: <name>"}`
when the name is not registered, and returns `{error: <exception message>}`
when the registered tool function raises; being a total function into
`ToolOutcome`, it never propagates a dispatch failure to the caller. -/
theorem c5_tool_dispatch_errors
    (registry : String → Option (ToolArgs → Except String String))
    (name : String) (args : ToolArgs) :
    (registry name = none →
      executeTool registry name args =
        ToolOutcome.error ("Unknown tool: " ++ name)) ∧
    (∀ f e, registry name = some f → f args = .error e →
      executeTool registry name args = ToolOutcome.error e) := by
  constructor
  · intro h
    simp [executeTool, h]
  · intro f e hf he
    simp [executeTool, hf, he]

/-- A two-entry registry: one tool that always raises, every other name
unregistered. -/
def c5Registry : String → Option (ToolArgs → Except String String) :=
  fun n => if n = "boom" then some (fun _ => .error "tool exploded") else none

theorem c5_tool_dispatch_errors_witness :
    executeTool c5Registry "missing" [] =
      ToolOutcome.error ("Unknown tool: " ++ "missing") ∧
    executeTool c5Registry "boom" [("x", "1")] =
      ToolOutcome.error "tool exploded" :=
  ⟨(c5_tool_dispatch_errors c5Registry "missing" []).1 rfl,
   (c5_tool_dispatch_errors c5Registry "boom" [("x", "1")]).2
     (fun _ => .error "tool exploded") "tool exploded" rfl rfl⟩

/-- C2: for every message history, when the model's first response carries
exactly one tool-invocation block and its second response has no
tool-invocation blocks, `BaseAgent.run` executes exactly one tool call
(with that tool's name and arguments), appends the raw assistant response,
then exactly one user-role turn holding the one tool result tagged with the
originating call id, calls the model exactly twice, and returns the second
response's text. -/
theorem c2_tool_loop_single_round
    (executor : String → ToolArgs → ToolOutcome)
    (history : List Message) (initial : String)
    (r1 r2 : List Block) (callId name : String) (args : ToolArgs)
    (h1 : toolUseBlocks r1 = [(callId, name, args)])
    (h2 : toolUseBlocks r2 = []) :
    runAgent executor [r1, r2] history initial =
      some ⟨extractText r2,
            history ++
              [⟨.user, .text initial⟩,
               ⟨.assistant, .blocks r1⟩,
               ⟨.user, .toolResults [⟨callId, executor name args⟩]⟩,
               ⟨.assistant, .text (extractText r2)⟩],
            [(name, args)], 2⟩ := by
  simp [runAgent, runLoop, h1, h2]

theorem c2_tool_loop_single_round_witness :
    runAgent (fun n _ => ToolOutcome.ok ("ran " ++ n))
      [[Block.text "let me check",
        Block.toolUse "call_1" "list_subjects" []],
       [Block.text "all done"]]
      [] "hello" =
      some ⟨extractText [Block.text "all done"],
            [] ++
              [⟨.user, .text "hello"⟩,
               ⟨.assistant, .blocks [Block.text "let me check",
                 Block.toolUse "call_1" "list_subjects" []]⟩,
               ⟨.user, .toolResults
                 [⟨"call_1", ToolOutcome.ok ("ran " ++ "list_subjects")⟩]⟩,
               ⟨.assistant, .text (extractText [Block.text "all done"])⟩],
            [("list_subjects", [])], 2⟩ :=
  c2_tool_loop_single_round (fun n _ => ToolOutcome.ok ("ran " ++ n)) []
    "hello" _ _ "call_1" "list_subjects" [] rfl rfl

/-- C3: for every pair of knowledge chunks with identical `subject_id`,
`topic_path`, and `content` but (possibly) different remaining metadata,
storing the first and then the second leaves exactly one stored entry; its
id is the SHA-256 hex digest of `"{subject}:{topic}:{content}"` and its
document and metadata are those of the second chunk. -/
theorem c3_store_knowledge_upsert (c1 c2 : KnowledgeChunk)
    (hs : c1.subject_id = c2.subject_id)
    (ht : c1.topic_path = c2.topic_path)
    (hc : c1.content = c2.content) :
    store_knowledge (store_knowledge [] c1) c2 = [chunkToEntry c2] ∧
    (chunkToEntry c2).id =
      sha256Hex (c2.subject_id ++ ":" ++ c2.topic_path ++ ":" ++ c2.content) := by
  have hid : generateId c1 = generateId c2 := by
    simp [generateId, hs, ht, hc]
  refine ⟨?_, rfl⟩
  simp [store_knowledge, upsertEntry, chunkToEntry, hid]

theorem c3_store_knowledge_upsert_witness :
    store_knowledge (store_knowledge []
        ⟨"Pods are the smallest deployable units", "kubernetes",
         "https://k8s.io/docs", 9/10, "Pods", 4/5, [], "2024-01-01T00:00:00"⟩)
        ⟨"Pods are the smallest deployable units", "kubernetes",
         "https://example.org/other", 1/2, "Pods", 1, ["note"],
         "2024-06-01T12:00:00"⟩ =
      [chunkToEntry
        ⟨"Pods are the smallest deployable units", "kubernetes",
         "https://example.org/other", 1/2, "Pods", 1, ["note"],
         "2024-06-01T12:00:00"⟩] ∧
    (chunkToEntry
        ⟨"Pods are the smallest deployable units", "kubernetes",
         "https://example.org/other", 1/2, "Pods", 1, ["note"],
         "2024-06-01T12:00:00"⟩).id =
      sha256Hex ("kubernetes" ++ ":" ++ "Pods" ++ ":" ++
        "Pods are the smallest deployable units") :=
  c3_store_knowledge_upsert _ _ rfl rfl rfl

/-- When an entry with key `k` exists, remapping every such entry to
`(k, v)` makes `find?` return `(k, v)`. -/
theorem find?_upsert_replace (k v : String) (l : List (String × String))
    (h : (l.find? (fun kv => kv.1 = k)).isSome) :
    (l.map (fun kv => if kv.1 = k then (k, v) else kv)).find?
      (fun kv => kv.1 = k) = some (k, v) := by
  induction l with
  | nil => simp at h
  | cons hd tl ih =>
    by_cases hhd : hd.1 = k
    · simp [List.find?_cons, hhd]
    · rw [List.find?_cons_of_neg _ (by simpa using hhd)] at h
      simp only [List.map_cons, if_neg hhd]
      rw [List.find?_cons_of_neg _ (by simpa using hhd)]
      exact ih h

/-- When no entry with key `k` exists, appending `(k, v)` makes `find?`
return `(k, v)`. -/
theorem find?_append_new (k v : String) (l : List (String × String))
    (h : l.find? (fun kv => kv.1 = k) = none) :
    (l ++ [(k, v)]).find? (fun kv => kv.1 = k) = some (k, v) := by
  induction l with
  | nil => simp [List.find?_cons]
  | cons hd tl ih =>
    by_cases hhd : hd.1 = k
    · rw [List.find?_cons_of_pos _ (by simpa using hhd)] at h
      simp at h
    · rw [List.find?_cons_of_neg _ (by simpa using hhd)] at h
      rw [List.cons_append, List.find?_cons_of_neg _ (by simpa using hhd)]
      exact ih h

/-- After `set_setting`, reading the same key yields the written value. -/
theorem get_setting_set_setting (s : DBState) (k v : String) :
    get_setting (set_setting s k v) k = some v := by
  unfold get_setting set_setting
  by_cases hex : (s.settings.find? (fun kv => kv.1 = k)).isSome
  · rw [if_pos hex]
    simp [find?_upsert_replace k v s.settings hex]
  · rw [if_neg hex]
    rw [Option.not_isSome_iff_eq_none] at hex
    simp [find?_append_new k v s.settings hex]

/-- C6: `set_active_subject` on a nonexistent subject raises the not-found
`ValueError` and leaves both the in-memory cache and the persisted
`active_subject` setting at their previous values; on an existing subject
it writes that id to both. -/
theorem c6_set_active_subject (s : OrchState) (subject_id : String) :
    (get_learning_goal s.db subject_id = none →
      orchSetActiveSubject s subject_id =
        (.error ("Subject '" ++ subject_id ++ "' does not exist"), s)) ∧
    (∀ g, get_learning_goal s.db subject_id = some g →
      (orchSetActiveSubject s subject_id).1 = .ok () ∧
      (orchSetActiveSubject s subject_id).2.active_subject_id =
        some subject_id ∧
      get_setting (orchSetActiveSubject s subject_id).2.db "active_subject" =
        some subject_id) := by
  constructor
  · intro h
    simp [orchSetActiveSubject, h]
  · intro g hg
    simp [orchSetActiveSubject, hg, get_setting_set_setting]

/-- A database holding exactly the subject `"kubernetes"`, with another
subject persisted as the active one. -/
def c6State : OrchState :=
  { db := { emptyDB with
      learning_goals :=
        [⟨1, "kubernetes", "maintain k8s repos", "practical",
          "2024-01-01T00:00:00", false, .initializing⟩]
      next_goal_id := 2
      settings := [("active_subject", "rust")] }
    vs := []
    active_subject_id := some "rust"
    state := .idle }

theorem c6_set_active_subject_witness :
    (orchSetActiveSubject c6State "python" =
      (.error ("Subject '" ++ "python" ++ "' does not exist"), c6State)) ∧
    ((orchSetActiveSubject c6State "kubernetes").1 = .ok () ∧
     (orchSetActiveSubject c6State "kubernetes").2.active_subject_id =
       some "kubernetes" ∧
     get_setting (orchSetActiveSubject c6State "kubernetes").2.db
       "active_subject" = some "kubernetes") :=
  ⟨(c6_set_active_subject c6State "python").1 rfl,
   (c6_set_active_subject c6State "kubernetes").2
     (rowToGoal ⟨1, "kubernetes", "maintain k8s repos", "practical",
       "2024-01-01T00:00:00", false, .initializing⟩) rfl⟩

/-- C9: `Orchestrator.delete_subject` deletes the subject's vector-store
chunks and clears a matching in-memory active pointer before consulting
the relational store; when no learning goal exists for the id, the call
returns `False` and leaves the database untouched, yet every vector-store
chunk stored under that subject id has been deleted. -/
theorem c9_orch_delete_vector_first (s : OrchState) (subject_id : String)
    (h : get_learning_goal s.db subject_id = none) :
    (orchDeleteSubject s subject_id).1 = false ∧
    (orchDeleteSubject s subject_id).2.db = s.db ∧
    (orchDeleteSubject s subject_id).2.vs =
      s.vs.filter (fun c => ¬ c.subject_id = subject_id) ∧
    (∀ c ∈ (orchDeleteSubject s subject_id).2.vs,
      c.subject_id ≠ subject_id) ∧
    (orchDeleteSubject s subject_id).2.active_subject_id =
      (if s.active_subject_id = some subject_id then none
       else s.active_subject_id) := by
  have hfind : s.db.learning_goals.find?
      (fun r => r.subject_id = subject_id) = none := by
    unfold get_learning_goal at h
    exact Option.map_eq_none'.mp h
  have hdel : dbDeleteSubject s.db subject_id = (false, s.db) := by
    unfold dbDeleteSubject
    rw [if_pos (by simp [hfind])]
  refine ⟨?_, ?_, rfl, ?_, rfl⟩
  · simp [orchDeleteSubject, hdel]
  · simp [orchDeleteSubject, hdel]
  · intro c hc
    have := List.of_mem_filter hc
    simpa using this

/-- A state with one goal and one stored fact, the fact belonging to a
subject with no relational goal row. -/
def c9State : OrchState :=
  { db := { emptyDB with
      learning_goals :=
        [⟨1, "rust", "learn rust", "practical",
          "2024-01-01T00:00:00", false, .initializing⟩]
      next_goal_id := 2 }
    vs := [⟨"someid", "orphan fact", "ghost", "https://x", 1, "Topic", 1, [],
            "2024-01-01T00:00:00"⟩]
    active_subject_id := some "ghost"
    state := .idle }

theorem c9_orch_delete_vector_first_witness :
    (orchDeleteSubject c9State "ghost").1 = false ∧
    (orchDeleteSubject c9State "ghost").2.db = c9State.db ∧
    (orchDeleteSubject c9State "ghost").2.vs =
      c9State.vs.filter (fun c => ¬ c.subject_id = "ghost") ∧
    (∀ c ∈ (orchDeleteSubject c9State "ghost").2.vs,
      c.subject_id ≠ "ghost") ∧
    (orchDeleteSubject c9State "ghost").2.active_subject_id =
      (if c9State.active_subject_id = some "ghost" then none
       else c9State.active_subject_id) :=
  c9_orch_delete_vector_first c9State "ghost" rfl

/-- The updated row written by `save_learning_goal`'s `ON CONFLICT` branch:
the saved goal's mutable fields over the stored row's `id`, `subject_id`,
and `created_date`. -/
def upsertedGoal (row : GoalRow) (goal : LearningGoal) : LearningGoal :=
  { id := some row.id
    subject_id := row.subject_id
    purpose_statement := goal.purpose_statement
    target_depth := goal.target_depth
    created_date := row.created_date
    research_complete := goal.research_complete
    status := goal.status }

/-- Pushing `find?` through a map that rewrites exactly the rows matching the
searched subject, with a rewrite that keeps `subject_id`. -/
theorem find?_goal_update (sid : String) (f : GoalRow → GoalRow)
    (hf : ∀ r, (f r).subject_id = r.subject_id) :
    ∀ (l : List GoalRow) (row : GoalRow),
      l.find? (fun r => r.subject_id = sid) = some row →
      (l.map (fun r => if r.subject_id = sid then f r else r)).find?
        (fun r => r.subject_id = sid) = some (f row)
  | [], row, h => by simp at h
  | hd :: tl, row, h => by
    by_cases hhd : hd.subject_id = sid
    · rw [List.find?_cons_of_pos _ (by simpa using hhd)] at h
      have : hd = row := by injection h
      subst this
      simp only [List.map_cons, if_pos hhd]
      exact List.find?_cons_of_pos _ (by simp [hf, hhd])
    · rw [List.find?_cons_of_neg _ (by simpa using hhd)] at h
      simp only [List.map_cons, if_neg hhd]
      rw [List.find?_cons_of_neg _ (by simpa using hhd)]
      exact find?_goal_update sid f hf tl row h

/-- C10: re-saving a learning goal whose subject already has a stored row
updates `purpose_statement`, `target_depth`, `research_complete`, and
`status`, but the stored `created_date` stays the row's original one —
whatever `created_date` the saved goal object carries. -/
theorem c10_created_date_preserved (s : DBState) (goal : LearningGoal)
    (row : GoalRow)
    (h : s.learning_goals.find? (fun r => r.subject_id = goal.subject_id) =
      some row) :
    get_learning_goal (save_learning_goal s goal).2 goal.subject_id =
      some (upsertedGoal row goal) := by
  have hrow : row.subject_id = goal.subject_id := by
    simpa using List.find?_some h
  unfold save_learning_goal
  rw [h]
  unfold get_learning_goal
  have hfind := find?_goal_update goal.subject_id
    (fun r =>
      { r with
        purpose_statement := goal.purpose_statement
        target_depth := goal.target_depth
        research_complete := goal.research_complete
        status := goal.status })
    (fun _ => rfl) s.learning_goals row h
  simp only [hfind]
  simp [rowToGoal, upsertedGoal, hrow]

theorem c10_created_date_preserved_witness :
    get_learning_goal
      (save_learning_goal
        { emptyDB with
          learning_goals :=
            [⟨1, "kubernetes", "old purpose", "practical",
              "2024-01-01T00:00:00", false, .initializing⟩]
          next_goal_id := 2 }
        { id := none
          subject_id := "kubernetes"
          purpose_statement := "new purpose"
          target_depth := "deep"
          created_date := "2025-12-31T23:59:59"
          research_complete := true
          status := .ready }).2 "kubernetes" =
      some (upsertedGoal
        ⟨1, "kubernetes", "old purpose", "practical",
         "2024-01-01T00:00:00", false, .initializing⟩
        { id := none
          subject_id := "kubernetes"
          purpose_statement := "new purpose"
          target_depth := "deep"
          created_date := "2025-12-31T23:59:59"
          research_complete := true
          status := .ready }) :=
  c10_created_date_preserved _ _ _ rfl

/-- The `get_active_subject` method only (at most) fills the in-memory cache: both
stores and the workflow state are untouched. -/
theorem orchGetActiveSubject_preserves (s : OrchState) :
    (orchGetActiveSubject s).2.db = s.db ∧
    (orchGetActiveSubject s).2.vs = s.vs ∧
    (orchGetActiveSubject s).2.state = s.state := by
  unfold orchGetActiveSubject
  cases s.active_subject_id with
  | some a => exact ⟨rfl, rfl, rfl⟩
  | none => cases get_setting s.db "active_subject" <;> exact ⟨rfl, rfl, rfl⟩

/-- C8: with an active subject whose learning goal exists, `start_research`
moves the workflow to `RESEARCHING` and asks the research agent for the
first knowledge-tree node's title when the tree is nonempty, else for the
hyphen-to-space title-cased subject slug — in both cases with the goal's
purpose statement as context. -/
theorem c8_start_research (s : OrchState) (sid : String) (goal : LearningGoal)
    (hactive : (orchGetActiveSubject s).1 = some sid)
    (hgoal : get_learning_goal s.db sid = some goal) :
    (orchStartResearch s).2.state = WorkflowState.researching ∧
    (orchStartResearch s).1 = .ok
      { topic_path :=
          match get_knowledge_tree s.db sid with
          | [] => slugToTitle sid
          | n :: _ => n.title
        subject_id := sid
        context := some goal.purpose_statement } := by
  obtain ⟨hdb, hvs, hst⟩ := orchGetActiveSubject_preserves s
  unfold orchStartResearch
  rcases hos : orchGetActiveSubject s with ⟨a, s1⟩
  rw [hos] at hactive hdb
  simp only at hactive hdb
  subst hactive
  simp only [hdb, hgoal]
  cases htree : get_knowledge_tree s.db sid with
  | nil => exact ⟨rfl, rfl⟩
  | cons n rest => exact ⟨rfl, rfl⟩

/-- Two subjects: `"kubernetes"` with a two-node tree, and
`"machine-learning"` with an empty tree (exercising the slug fallback). -/
def c8State : OrchState :=
  { db := { emptyDB with
      learning_goals :=
        [⟨1, "kubernetes", "maintain k8s repos", "practical",
          "2024-01-01T00:00:00", false, .initializing⟩,
         ⟨2, "machine-learning", "study ML", "deep",
          "2024-02-01T00:00:00", false, .initializing⟩]
      next_goal_id := 3
      knowledge_nodes :=
        [⟨2, "kubernetes", some 1, "Containers", none, 1, false, [], []⟩,
         ⟨1, "kubernetes", none, "Pods", none, 0, true, [], []⟩]
      next_node_id := 3 }
    vs := []
    active_subject_id := some "kubernetes"
    state := .idle }

theorem c8_start_research_witness :
    ((orchStartResearch c8State).2.state = WorkflowState.researching ∧
     (orchStartResearch c8State).1 = .ok
       { topic_path :=
           match get_knowledge_tree c8State.db "kubernetes" with
           | [] => slugToTitle "kubernetes"
           | n :: _ => n.title
         subject_id := "kubernetes"
         context := some "maintain k8s repos" }) ∧
    ((orchStartResearch { c8State with
        active_subject_id := some "machine-learning" }).1 = .ok
       { topic_path :=
           match get_knowledge_tree c8State.db "machine-learning" with
           | [] => slugToTitle "machine-learning"
           | n :: _ => n.title
         subject_id := "machine-learning"
         context := some "study ML" }) ∧
    slugToTitle "machine-learning" = "Machine Learning" ∧
    (get_knowledge_tree c8State.db "kubernetes").map
      (fun n => n.title) = ["Pods", "Containers"] :=
  ⟨c8_start_research c8State "kubernetes"
     (rowToGoal ⟨1, "kubernetes", "maintain k8s repos", "practical",
       "2024-01-01T00:00:00", false, .initializing⟩) rfl rfl,
   (c8_start_research { c8State with
        active_subject_id := some "machine-learning" } "machine-learning"
     (rowToGoal ⟨2, "machine-learning", "study ML", "deep",
       "2024-02-01T00:00:00", false, .initializing⟩) rfl rfl).2,
   by decide, by decide⟩

/-- C4: `Database.delete_subject` returns `False` and leaves every table
unchanged when no learning goal with the subject id exists; when one
exists it removes exactly the subject's responses (those referencing its
lessons), lessons, knowledge nodes, and goal row, clears the
`active_subject` setting if its value was this subject, and returns
`True`; and the connection manager commits only on success — any failure
inside a transaction body leaves the database state untouched. -/
theorem c4_db_delete_subject (s : DBState) (subject_id : String) :
    ((∀ g ∈ s.learning_goals, ¬ g.subject_id = subject_id) →
      dbDeleteSubject s subject_id = (false, s)) ∧
    ((∃ g ∈ s.learning_goals, g.subject_id = subject_id) →
      (dbDeleteSubject s subject_id).1 = true ∧
      (∀ g, g ∈ (dbDeleteSubject s subject_id).2.learning_goals ↔
        (g ∈ s.learning_goals ∧ ¬ g.subject_id = subject_id)) ∧
      (∀ n, n ∈ (dbDeleteSubject s subject_id).2.knowledge_nodes ↔
        (n ∈ s.knowledge_nodes ∧ ¬ n.subject_id = subject_id)) ∧
      (∀ l, l ∈ (dbDeleteSubject s subject_id).2.lessons ↔
        (l ∈ s.lessons ∧ ¬ l.subject_id = subject_id)) ∧
      (∀ r, r ∈ (dbDeleteSubject s subject_id).2.responses ↔
        (r ∈ s.responses ∧
         ¬ ∃ l ∈ s.lessons, l.subject_id = subject_id ∧
            r.lesson_id = some l.id)) ∧
      (∀ kv, kv ∈ (dbDeleteSubject s subject_id).2.settings ↔
        (kv ∈ s.settings ∧
         ¬ (kv.1 = "active_subject" ∧ kv.2 = subject_id)))) ∧
    (∀ (body : DBState → Except String (Bool × DBState)) (e : String),
      body s = .error e → (runTransaction body s).2 = s) := by
  refine ⟨?_, ?_, ?_⟩
  · intro h
    have hfind : s.learning_goals.find?
        (fun r => r.subject_id = subject_id) = none :=
      List.find?_eq_none.mpr (fun x hx => by simpa using h x hx)
    unfold dbDeleteSubject
    rw [if_pos (by simp [hfind])]
  · intro h
    have hfind : (s.learning_goals.find?
        (fun r => r.subject_id = subject_id)).isSome := by
      rw [List.find?_isSome]
      obtain ⟨g, hg, hgs⟩ := h
      exact ⟨g, hg, by simpa using hgs⟩
    have hcond : ¬ (s.learning_goals.find?
        (fun r => r.subject_id = subject_id)).isNone := by
      simp only [Option.isNone_iff_eq_none]
      intro hnone
      rw [hnone] at hfind
      simp at hfind
    unfold dbDeleteSubject
    rw [if_neg (by simpa using hcond)]
    refine ⟨rfl, ?_, ?_, ?_, ?_, ?_⟩
    · intro g
      simp [List.mem_filter]
    · intro n
      simp [List.mem_filter]
    · intro l
      simp [List.mem_filter]
    · intro r
      simp only [List.mem_filter, decide_eq_true_eq, List.mem_map,
        List.mem_filter]
      constructor
      · rintro ⟨hr, hnot⟩
        refine ⟨hr, ?_⟩
        rintro ⟨l, hl, hls, hrl⟩
        apply hnot
        refine ⟨l.id, ?_, l, ⟨hl, by simpa using hls⟩, rfl⟩
        simp [hrl]
      · rintro ⟨hr, hnot⟩
        refine ⟨hr, ?_⟩
        rintro ⟨lid, hlid, l, ⟨hl, hls⟩, hid⟩
        apply hnot
        refine ⟨l, hl, by simpa using hls, ?_⟩
        cases hrl : r.lesson_id with
        | none => rw [hrl] at hlid; simp at hlid
        | some x =>
          rw [hrl] at hlid
          have hx : x = lid := by simpa using hlid
          simp [hid, ← hx]
    · intro kv
      simp only [List.mem_filter, decide_eq_true_eq]
  · intro body e hbody
    unfold runTransaction
    rw [hbody]

/-- A database holding subject `"a"` with a node, a lesson, a response,
and the active-subject setting pointing at it. -/
def c4State : DBState :=
  { learning_goals :=
      [⟨1, "a", "learn a", "practical", "2024-01-01T00:00:00", false,
        .initializing⟩]
    knowledge_nodes := [⟨1, "a", none, "Roots", none, 0, false, [], []⟩]
    lessons := [⟨1, "a"⟩]
    responses := [⟨1, some 1, 1⟩]
    settings := [("active_subject", "a")]
    next_goal_id := 2
    next_node_id := 2 }

theorem c4_db_delete_subject_witness :
    dbDeleteSubject c4State "missing" = (false, c4State) ∧
    (dbDeleteSubject c4State "a").1 = true ∧
    (runTransaction
      (fun _ => (.error "disk full" : Except String (Bool × DBState)))
      c4State).2 = c4State :=
  ⟨(c4_db_delete_subject c4State "missing").1 (by decide),
   ((c4_db_delete_subject c4State "a").2.1
     ⟨⟨1, "a", "learn a", "practical", "2024-01-01T00:00:00", false,
       .initializing⟩, List.Mem.head _, rfl⟩).1,
   (c4_db_delete_subject c4State "a").2.2
     (fun _ => .error "disk full") "disk full" rfl⟩

/-- The number of stored facts of a subject filed under exactly the given
topic title. -/
def numFactsFor (store : VectorStoreState) (subject_id title : String) : Nat :=
  (store.filter
    (fun c => c.subject_id = subject_id ∧ c.topic_path = title)).length

/-- A `find?` with an equality test finds a present element. -/
theorem find?_eq_of_mem (t : String) (l : List String) (h : t ∈ l) :
    l.find? (fun x => x = t) = some t := by
  induction l with
  | nil => simp at h
  | cons hd tl ih =>
    by_cases hhd : hd = t
    · subst hhd
      exact List.find?_cons_of_pos _ (by simp)
    · rw [List.find?_cons_of_neg _ (by simpa using hhd)]
      rcases List.mem_cons.mp h with h1 | h2
      · exact absurd h1.symm hhd
      · exact ih h2

/-- Looking a key up in the dedup-keyed count map yields that key's
multiplicity (0 when absent). -/
theorem lookupCount_count_dedup (topics : List String) (t : String) :
    lookupCount (topics.dedup.map (fun x => (x, topics.count x))) t =
      topics.count t := by
  unfold lookupCount
  by_cases h : t ∈ topics
  · have hd : t ∈ topics.dedup := List.mem_dedup.mpr h
    rw [List.find?_map]
    have hfind : (topics.dedup.find?
        ((fun p => decide ((p : String × Nat).1 = t)) ∘
          (fun x => (x, topics.count x)))) = some t := by
      have := find?_eq_of_mem t topics.dedup hd
      simpa [Function.comp] using this
    rw [hfind]
    rfl
  · have h0 : topics.count t = 0 := List.count_eq_zero.mpr h
    have hnone : (topics.dedup.map
        (fun x => (x, topics.count x))).find? (fun p => p.1 = t) = none := by
      rw [List.find?_eq_none]
      rintro ⟨x, n⟩ hx
      simp only [List.mem_map] at hx
      obtain ⟨y, hy, hxy⟩ := hx
      injection hxy with e1 e2
      subst e1
      simp only [decide_eq_true_eq]
      intro hyt
      exact h (List.mem_dedup.mp (hyt ▸ hy))
    rw [hnone, h0]

/-- The count map agrees with the semantic per-topic fact count. -/
theorem lookupCount_count_facts (store : VectorStoreState) (sid t : String) :
    lookupCount (count_facts_by_topic store sid) t =
      numFactsFor store sid t := by
  unfold count_facts_by_topic numFactsFor
  rw [lookupCount_count_dedup]
  rw [List.count, List.countP_map, List.countP_eq_length_filter,
    List.filter_filter]
  congr 1
  apply List.filter_congr
  intro c _
  rw [Bool.eq_iff_iff]
  simp only [Function.comp, Bool.and_eq_true, beq_iff_eq, decide_eq_true_eq]
  constructor
  · rintro ⟨a, b⟩
    exact ⟨b, a⟩
  · rintro ⟨a, b⟩
    exact ⟨b, a⟩

/-- The count map's values sum to the subject's total stored fact count. -/
theorem total_count_facts (store : VectorStoreState) (sid : String) :
    ((count_facts_by_topic store sid).map (fun p => p.2)).sum =
      (store.filter (fun c => c.subject_id = sid)).length := by
  unfold count_facts_by_topic
  rw [List.map_map]
  have hcomp : ((fun p => (p : String × Nat).2) ∘
      (fun x => (x, ((store.filter (fun c => c.subject_id = sid)).map
        (fun c => c.topic_path)).count x))) =
      (fun x => ((store.filter (fun c => c.subject_id = sid)).map
        (fun c => c.topic_path)).count x) := rfl
  rw [hcomp, List.sum_map_count_dedup_eq_length, List.length_map]

/-- C1 (amended): `get_research_progress` returns one entry per knowledge
node — carrying the node's id, title, depth, and the count of the
subject's stored facts whose `topic_path` equals the node's title (0 when
none match) — and a `total_facts` equal to the total number of facts
stored for the subject, which exceeds the per-node sum when facts exist
under topics matching no node title. -/
theorem c1_research_progress (s : OrchState) (sid : String) :
    (orchGetResearchProgress s (some sid)).1 = .ok
      { subject_id := sid
        nodes := (get_knowledge_tree s.db sid).map (fun n =>
          { id := n.id
            title := n.title
            depth := n.depth
            fact_count := numFactsFor s.vs sid n.title })
        total_facts :=
          (s.vs.filter (fun c => c.subject_id = sid)).length } := by
  have hbase : (orchGetResearchProgress s (some sid)).1 = .ok
      { subject_id := sid
        nodes := (get_knowledge_tree s.db sid).map (fun n =>
          { id := n.id
            title := n.title
            depth := n.depth
            fact_count :=
              lookupCount (count_facts_by_topic s.vs sid) n.title })
        total_facts :=
          ((count_facts_by_topic s.vs sid).map (fun p => p.2)).sum } := rfl
  rw [hbase]
  have hnodes : (get_knowledge_tree s.db sid).map (fun n =>
      ProgressNodeEntry.mk n.id n.title n.depth
        (lookupCount (count_facts_by_topic s.vs sid) n.title)) =
    (get_knowledge_tree s.db sid).map (fun n =>
      ProgressNodeEntry.mk n.id n.title n.depth
        (numFactsFor s.vs sid n.title)) := by
    apply List.map_congr_left
    intro n _
    rw [lookupCount_count_facts]
  rw [hnodes, total_count_facts]

/-- A subject with zero knowledge nodes but one stored fact (topic `"X"`
matches no node title). -/
def c1CexState : OrchState :=
  { db := emptyDB
    vs := store_knowledge []
      ⟨"Orphan fact", "s", "https://src", 1, "X", 1, [], "2024-01-01T00:00:00"⟩
    active_subject_id := none
    state := .idle }

/-- C1 counterexample: with 0 nodes and 1 stored fact, `total_facts` is 1
while the sum of per-node fact counts is 0 — the claim's equation fails. -/
theorem c1_total_facts_counterexample :
    ∃ p, (orchGetResearchProgress c1CexState (some "s")).1 = .ok p ∧
      p.total_facts ≠ (p.nodes.map (fun n => n.fact_count)).sum := by
  refine ⟨_, rfl, ?_⟩
  decide

/-- C7 counterexample: `vector_search`'s `top_k` is annotated plain `int`
(not a union with `None`), yet — because it carries a default value — the
generated schema leaves it out of the `required` array, contradicting the
claim that every non-Optional non-store parameter is required. -/
theorem c7_schema_counterexample :
    ∃ ps ∈ toolSignatures, ps.1 = "vector_search" ∧
      (⟨"top_k", PyType.int, true⟩ : SigParam) ∈ ps.2 ∧
      isOptionalType PyType.int = false ∧
      ("top_k", JsonType.integer) ∈ (getToolDefinition ps.1 ps.2).properties ∧
      "top_k" ∉ (getToolDefinition ps.1 ps.2).required := by
  decide

/-- C7 (amended): for every tool in the registry, each non-store parameter
appears in the schema properties mapped to the primitive JSON type of its
(unwrapped, for unions with `None`) annotation; a parameter is in the
`required` array exactly when its annotation is not a union with `None`
AND it carries no default; the `db` and `vector_store` parameters never
appear in properties or required; and every required name comes from such
a parameter. -/
theorem c7_schema_generation :
    ∀ ps ∈ toolSignatures,
      (∀ p ∈ ps.2, ¬ (p.name = "db" ∨ p.name = "vector_store") →
        ((p.name, pyTypeToSchema (unwrapOptional p.ty)) ∈
          (getToolDefinition ps.1 ps.2).properties ∧
         (p.name ∈ (getToolDefinition ps.1 ps.2).required ↔
           (¬ isOptionalType p.ty = true ∧ ¬ p.hasDefault = true)))) ∧
      (∀ p ∈ ps.2, (p.name = "db" ∨ p.name = "vector_store") →
        ((∀ pr ∈ (getToolDefinition ps.1 ps.2).properties,
            ¬ pr.1 = p.name) ∧
         p.name ∉ (getToolDefinition ps.1 ps.2).required)) ∧
      (∀ n ∈ (getToolDefinition ps.1 ps.2).required,
        ∃ p ∈ ps.2, p.name = n ∧ ¬ isOptionalType p.ty = true ∧
          ¬ p.hasDefault = true ∧ ¬ (n = "db" ∨ n = "vector_store")) := by
  decide

theorem c7_schema_generation_witness :
    ("query", pyTypeToSchema (unwrapOptional PyType.str)) ∈
      (getToolDefinition "vector_search"
        [⟨"db", .other, false⟩, ⟨"vector_store", .other, false⟩,
         ⟨"query", .str, false⟩, ⟨"subject_id", .str, false⟩,
         ⟨"top_k", .int, true⟩, ⟨"min_confidence", .float, true⟩]).properties ∧
    ("query" ∈ (getToolDefinition "vector_search"
        [⟨"db", .other, false⟩, ⟨"vector_store", .other, false⟩,
         ⟨"query", .str, false⟩, ⟨"subject_id", .str, false⟩,
         ⟨"top_k", .int, true⟩, ⟨"min_confidence", .float, true⟩]).required ↔
      (¬ isOptionalType PyType.str = true ∧ ¬ (false : Bool) = true)) :=
  (c7_schema_generation
    ("vector_search",
      [⟨"db", .other, false⟩, ⟨"vector_store", .other, false⟩,
       ⟨"query", .str, false⟩, ⟨"subject_id", .str, false⟩,
       ⟨"top_k", .int, true⟩, ⟨"min_confidence", .float, true⟩])
    (by decide)).1 ⟨"query", .str, false⟩ (by decide) (by decide)

end Chiron
